import Mathlib

set_option linter.unusedVariables false

/-!
Shallow embedding of `src/stdict.py`, a small MCP adapter for the
Standard Korean Dictionary HTTP API.  The embedding models:

* the query-parameter sets built by the `search` and `detail` tools
  (Python dicts become association lists of key/value pairs, in
  insertion order; all keys here are distinct, and `dict.update` with
  fresh keys is list append);
* Python truthiness of `None` / strings (`None` and `""` are falsy);
* the method-inference helper `determine_method` (Python
  `str.isdigit`, which requires a non-empty all-digit string, is
  modelled over decimal digits);
* the per-call dispatch: HTTP outcomes are an oracle
  (`HttpOutcome`), and each operation returns its list of text
  contents together with the number of network calls it performed;
* credential resolution `get_api_key` over an explicit environment
  value and configuration-file state (a small JSON value type mirrors
  the nested `mcpServers -> stdict -> env -> STDICT_API_KEY` lookup;
  any shape mismatch or read/parse failure is swallowed by the bare
  `except`, exactly as in the source).
-/

/-- A query-parameter value: the Python code passes strings and ints. -/
inductive PValue where
  | str (s : String)
  | int (n : Int)
deriving DecidableEq, Repr

/-- Python truthiness of an `Optional[str]`: `None` and `""` are falsy. -/
def pyTruthy : Option String → Bool
  | none => false
  | some s => !(s == "")

/-- Arguments of the `search` tool, with the source's defaults recorded
separately in `defaultSearchArgs`. -/
structure SearchArgs where
  query : String
  api_key : String
  req_type : String
  start : Int
  num : Int
  advanced : Bool
  target : Int
  method : String
  type1 : String
  type2 : String
  pos : String
  cat : String
  multimedia : String
  letter_s : Int
  letter_e : Int
  update_s : Option String
  update_e : Option String

/-- The source's default values for `search` (query and api_key have no
usable defaults; they are filled per call). -/
def defaultSearchArgs (query api_key : String) : SearchArgs :=
  { query := query
    api_key := api_key
    req_type := "json"
    start := 1
    num := 10
    advanced := false
    target := 1
    method := "exact"
    type1 := "all"
    type2 := "all"
    pos := "0"
    cat := "0"
    multimedia := "0"
    letter_s := 1
    letter_e := 1
    update_s := none
    update_e := none }

/-- `if v:` guarded insertion of an optional date parameter
(`update_s` / `update_e` are added only when truthy). -/
def optPair (k : String) (v : Option String) : List (String × PValue) :=
  if pyTruthy v then [(k, PValue.str (v.getD ""))] else []

/-- The base `params` dict of `search` (src/stdict.py lines 393-401). -/
def basePairs (a : SearchArgs) : List (String × PValue) :=
  [("key", PValue.str a.api_key),
   ("q", PValue.str a.query),
   ("req_type", PValue.str a.req_type),
   ("start", PValue.int a.start),
   ("num", PValue.int a.num),
   ("advanced", PValue.str (if a.advanced then "y" else "n")),
   ("type_search", PValue.str "search")]

/-- The `advanced_params` dict of `search` (src/stdict.py lines 404-420),
with the conditionally added date bounds. -/
def advancedPairs (a : SearchArgs) : List (String × PValue) :=
  [("target", PValue.int a.target),
   ("method", PValue.str a.method),
   ("type1", PValue.str a.type1),
   ("type2", PValue.str a.type2),
   ("pos", PValue.str a.pos),
   ("cat", PValue.str a.cat),
   ("multimedia", PValue.str a.multimedia),
   ("letter_s", PValue.int a.letter_s),
   ("letter_e", PValue.int a.letter_e)]
  ++ optPair "update_s" a.update_s
  ++ optPair "update_e" a.update_e

/-- The full outbound parameter set of `search`: the base dict, updated
with the advanced dict only when the advanced flag is set
(src/stdict.py lines 393-422). -/
def searchParams (a : SearchArgs) : List (String × PValue) :=
  basePairs a ++ (if a.advanced then advancedPairs a else [])

/-- The keys of the outbound `search` parameter set. -/
def paramKeys (a : SearchArgs) : List String :=
  (searchParams a).map Prod.fst

/-- Dict lookup on the parameter list. -/
def getParam (ps : List (String × PValue)) (k : String) : Option PValue :=
  (ps.find? (fun p => p.1 == k)).map Prod.snd

/-- The nine advanced filter fields always merged in when advanced. -/
def advFilterKeys : List String :=
  ["target", "method", "type1", "type2", "pos", "cat", "multimedia",
   "letter_s", "letter_e"]

/-- Outcome of `requests.get` followed by `raise_for_status`: either a
successful response body, or a raised exception whose `str` is `desc`
(network error, non-2xx status, and so on). -/
inductive HttpOutcome where
  | success (body : String)
  | failure (desc : String)

/-- The try/except dispatch shared by both tools: on success the raw
body is the single text content, on any exception the single text
content is the error string; one network call is performed either way
(src/stdict.py lines 424-432 and 543-551). -/
def dispatch (http : HttpOutcome) : List String × Nat :=
  match http with
  | HttpOutcome.success body => ([body], 1)
  | HttpOutcome.failure desc => (["Error: " ++ desc], 1)

/-- The `search` tool, given its argument record and the HTTP oracle:
returns the list of text contents and the number of network calls. -/
def search (a : SearchArgs) (http : HttpOutcome) : List String × Nat :=
  dispatch http

/-- Python `str.isdigit` restricted to decimal digits: true exactly when
the string is non-empty and every character is a decimal digit. -/
def str_isdigit (s : String) : Bool :=
  !s.data.isEmpty && s.data.all Char.isDigit

/-- `determine_method` (src/stdict.py lines 435-449): `target_code` for
digit-only queries, `word_info` otherwise. -/
def determine_method (query : String) : String :=
  if str_isdigit query then "target_code" else "word_info"

/-- The effective method of `detail`: auto-determined when the caller
passed `None` (src/stdict.py lines 523-525). -/
def effectiveMethod (query : String) (method : Option String) : String :=
  match method with
  | none => determine_method query
  | some m => m

/-- The `detail` tool (src/stdict.py lines 452-551): validates the
(possibly inferred) method, then the req_type, before any network
I/O; on a valid call it performs exactly one GET and dispatches the
outcome.  Returns the list of text contents and the network-call
count. -/
def detail (query : String) (api_key : String) (method : Option String)
    (req_type : String) (http : HttpOutcome) : List String × Nat :=
  let m := effectiveMethod query method
  if !(m == "word_info" || m == "target_code") then
    (["Error: Invalid method value. Must be 'word_info' or 'target_code'"], 0)
  else if !(req_type == "json" || req_type == "xml") then
    (["Error: Invalid req_type value. Must be 'json' or 'xml'"], 0)
  else
    dispatch http

/-- The parameter set sent by a valid `detail` call
(src/stdict.py lines 535-541). -/
def detailParams (query api_key m req_type : String) : List (String × PValue) :=
  [("key", PValue.str api_key),
   ("method", PValue.str m),
   ("req_type", PValue.str req_type),
   ("q", PValue.str query),
   ("type_search", PValue.str "view")]

/-- A JSON value, as far as the configuration lookup needs to
distinguish shapes: strings, objects, and anything else.  Any
non-object where the code indexes raises inside the `try`, which the
bare `except` turns into a fall-through. -/
inductive JValue where
  | str (s : String)
  | obj (fields : List (String × JValue))
  | other

/-- First-match field lookup in a JSON object, as Python dict access. -/
def jGet : List (String × JValue) → String → Option JValue
  | [], _ => none
  | (k, v) :: rest, key => if k == key then some v else jGet rest key

/-- The nested lookup of the key inside a parsed configuration:
`config["mcpServers"]["stdict"].get("env", {})["STDICT_API_KEY"]`
with membership guards (src/stdict.py lines 26-30).  Every shape
mismatch either fails a membership test or raises into the bare
`except`; both end as `none`. -/
def configKeyLookup (config : JValue) : Option JValue :=
  match config with
  | JValue.obj top =>
    match jGet top "mcpServers" with
    | some (JValue.obj servers) =>
      match jGet servers "stdict" with
      | some (JValue.obj entry) =>
        match jGet entry "env" with
        | some (JValue.obj envMap) => jGet envMap "STDICT_API_KEY"
        | _ => none
      | _ => none
    | _ => none
  | _ => none

/-- State of the configuration file on disk: missing, present but
unreadable (open/read raises), present but not JSON (`json.load`
raises), or parsed content. -/
inductive FileState where
  | absent
  | unreadable
  | malformed
  | content (j : JValue)

/-- What reaches `json.load` successfully: only parsed content; an
absent, unreadable or malformed file yields nothing
(src/stdict.py lines 23-32: the existence check plus the bare
`except` around open and parse). -/
def readConfig : FileState → Option JValue
  | FileState.content j => some j
  | _ => none

/-- The key the configuration file provides, if any. -/
def fileKey (fs : FileState) : Option JValue :=
  match readConfig fs with
  | some j => configKeyLookup j
  | none => none

/-- The startup error message raised when no key is found. -/
def apiKeyNotFoundMsg : String :=
  "API key not found. Please set the STDICT_API_KEY environment variable or configure it in Claude desktop config."

/-- The config-file half of credential resolution: the file's key if it
provides one, otherwise the startup error (src/stdict.py lines 21-36). -/
def configOrFail (fs : FileState) : Except String JValue :=
  match fileKey fs with
  | some v => Except.ok v
  | none => Except.error apiKeyNotFoundMsg

/-- `get_api_key` (src/stdict.py lines 15-36): the environment variable
wins when truthy (`if api_key:`), otherwise the configuration file is
consulted, otherwise `ValueError` is raised. -/
def get_api_key (env : Option String) (fs : FileState) : Except String JValue :=
  match env with
  | none => configOrFail fs
  | some k => if k == "" then configOrFail fs else Except.ok (JValue.str k)

/-! ## Helper lemmas -/

lemma determine_method_of_isdigit {s : String} (h : str_isdigit s = true) :
    determine_method s = "target_code" := by
  simp [determine_method, h]

lemma determine_method_of_not_isdigit {s : String} (h : str_isdigit s = false) :
    determine_method s = "word_info" := by
  simp [determine_method, h]

lemma data_eq_nil {s : String} (h : s.data = []) : s = "" := by
  obtain ⟨l⟩ := s
  simp only [String.data] at h
  subst h
  rfl

/-- Concrete advanced-search arguments used by witnesses: advanced
search with an empty start date and a set end date, as in the spec's
example. -/
def exAdvArgs : SearchArgs :=
  { defaultSearchArgs "사랑" "testkey" with
      advanced := true, update_s := some "", update_e := some "20230101" }

/-- Concrete configuration content whose nested path provides a key. -/
def cfgWithKey : JValue :=
  JValue.obj [("mcpServers", JValue.obj [("stdict", JValue.obj
    [("env", JValue.obj [("STDICT_API_KEY", JValue.str "filekey")])])])]

/-! ## Claim theorems -/

/-- Claim C1, counterexample: with `advanced=false` and the source's
defaults, the outbound parameter set of `search` is not limited to the
six keys the claim lists: it also contains `type_search` (mapped to
`"search"`, src/stdict.py line 400). -/
theorem stdict_C1_counterexample :
    "type_search" ∈ paramKeys (defaultSearchArgs "사랑" "testkey") ∧
    "type_search" ∉ (["key", "q", "req_type", "start", "num", "advanced"] : List String) := by
  constructor
  · decide
  · decide

/-- Claim C1, amended: for every search call with the advanced flag
false, the outbound parameter set has exactly the keys `key`, `q`,
`req_type`, `start`, `num`, `advanced` and `type_search` (in that
order, hence no advanced-filter keys), with `advanced` mapped to the
string `"n"`. -/
theorem stdict_C1_amended (a : SearchArgs) (h : a.advanced = false) :
    paramKeys a = ["key", "q", "req_type", "start", "num", "advanced", "type_search"] ∧
    getParam (searchParams a) "advanced" = some (PValue.str "n") := by
  constructor
  · simp [paramKeys, searchParams, basePairs, h]
  · simp [getParam, searchParams, basePairs, h, List.find?]

/-- Claim C1, witness for the amended theorem at the spec's concrete
example call. -/
theorem stdict_C1_amended_witness :
    paramKeys (defaultSearchArgs "사랑" "testkey") =
      ["key", "q", "req_type", "start", "num", "advanced", "type_search"] ∧
    getParam (searchParams (defaultSearchArgs "사랑" "testkey")) "advanced" =
      some (PValue.str "n") :=
  stdict_C1_amended (defaultSearchArgs "사랑" "testkey") rfl

/-- Claim C2, counterexample: the empty string vacuously consists
entirely of decimal digits (every one of its characters is a digit),
yet `determine_method` classifies it as `word_info`, because Python's
`str.isdigit` demands at least one character. -/
theorem stdict_C2_counterexample :
    "".data.all Char.isDigit = true ∧ determine_method "" = "word_info" ∧
    determine_method "" ≠ "target_code" := by
  refine ⟨rfl, rfl, ?_⟩
  decide

/-- Claim C2, amended: for every string `s`, `determine_method` returns
`"target_code"` if `s` is non-empty and consists entirely of decimal
digits, returns `"word_info"` if `s` contains any non-digit character,
and returns no other value. -/
theorem stdict_C2_amended (s : String) :
    (s ≠ "" → s.data.all Char.isDigit = true → determine_method s = "target_code") ∧
    ((∃ c ∈ s.data, ¬ c.isDigit = true) → determine_method s = "word_info") ∧
    (determine_method s = "target_code" ∨ determine_method s = "word_info") := by
  cases hb : str_isdigit s with
  | true =>
    have hd := determine_method_of_isdigit hb
    refine ⟨fun _ _ => hd, ?_, Or.inl hd⟩
    rintro ⟨c, hc, hcd⟩
    have hall : s.data.all Char.isDigit = true := (Bool.and_eq_true _ _ ▸ hb).2
    exact absurd (List.all_eq_true.mp hall c hc) hcd
  | false =>
    have hd := determine_method_of_not_isdigit hb
    refine ⟨?_, fun _ => hd, Or.inr hd⟩
    intro hne hall
    exfalso
    have hbe : (!s.data.isEmpty && s.data.all Char.isDigit) = false := hb
    rw [hall, Bool.and_true, Bool.not_eq_false'] at hbe
    exact hne (data_eq_nil (List.isEmpty_iff.mp hbe))

/-- Claim C2, witness for the amended theorem: a non-empty digit string
is classified as `target_code`. -/
theorem stdict_C2_amended_witness :
    determine_method "12345" = "target_code" :=
  (stdict_C2_amended "12345").1 (by decide) (by decide)

/-- Claim C9: the empty string is classified as `word_info`, not
`target_code`, by the method-inference function. -/
theorem stdict_C9 :
    determine_method "" = "word_info" ∧ determine_method "" ≠ "target_code" := by
  refine ⟨rfl, ?_⟩
  decide

/-- Claim C3: each of the nine advanced filter fields appears among the
outbound `search` parameter keys if and only if the advanced flag is
true, and each date bound appears if and only if the advanced flag is
true and its value is non-empty (a `None` value counts as empty, as in
the source's truthiness test). -/
theorem stdict_C3 (a : SearchArgs) :
    (∀ k ∈ advFilterKeys, (k ∈ paramKeys a ↔ a.advanced = true)) ∧
    ("update_s" ∈ paramKeys a ↔ a.advanced = true ∧ pyTruthy a.update_s = true) ∧
    ("update_e" ∈ paramKeys a ↔ a.advanced = true ∧ pyTruthy a.update_e = true) := by
  cases hadv : a.advanced <;> cases hs : pyTruthy a.update_s <;>
    cases he : pyTruthy a.update_e <;>
    simp [paramKeys, searchParams, basePairs, advancedPairs, optPair,
      advFilterKeys, hadv, hs, he]

/-- Claim C3, witness: in the spec's concrete advanced call with an
empty `update_s`, the filter key `target` is present. -/
theorem stdict_C3_witness :
    "target" ∈ paramKeys exAdvArgs ↔ exAdvArgs.advanced = true :=
  (stdict_C3 exAdvArgs).1 "target" (by decide)

/-- Claim C4: a `detail` call whose effective method (the caller's
value, or the inferred one when absent) is outside
`{word_info, target_code}` returns exactly the method error text and
performs zero network calls, whatever the HTTP oracle would have
answered. -/
theorem stdict_C4 (query api_key : String) (method : Option String)
    (req_type : String) (http : HttpOutcome)
    (h : effectiveMethod query method ≠ "word_info" ∧
         effectiveMethod query method ≠ "target_code") :
    detail query api_key method req_type http =
      (["Error: Invalid method value. Must be 'word_info' or 'target_code'"], 0) := by
  obtain ⟨h1, h2⟩ := h
  simp [detail, h1, h2]

/-- Claim C4, witness at the spec's example `method="bogus"`. -/
theorem stdict_C4_witness :
    detail "사랑" "testkey" (some "bogus") "json" (HttpOutcome.success "body") =
      (["Error: Invalid method value. Must be 'word_info' or 'target_code'"], 0) :=
  stdict_C4 "사랑" "testkey" (some "bogus") "json" (HttpOutcome.success "body")
    (by constructor <;> decide)

/-- Claim C5: a `detail` call with a valid effective method but a
`req_type` outside `{json, xml}` returns exactly the req_type error
text and performs zero network calls. -/
theorem stdict_C5 (query api_key : String) (method : Option String)
    (req_type : String) (http : HttpOutcome)
    (hm : effectiveMethod query method = "word_info" ∨
          effectiveMethod query method = "target_code")
    (hr : req_type ≠ "json" ∧ req_type ≠ "xml") :
    detail query api_key method req_type http =
      (["Error: Invalid req_type value. Must be 'json' or 'xml'"], 0) := by
  obtain ⟨hr1, hr2⟩ := hr
  cases hm with
  | inl h => simp [detail, h, hr1, hr2]
  | inr h => simp [detail, h, hr1, hr2]

/-- Claim C5, witness at the spec's example `req_type="yaml"`. -/
theorem stdict_C5_witness :
    detail "사랑" "testkey" (some "word_info") "yaml" (HttpOutcome.success "body") =
      (["Error: Invalid req_type value. Must be 'json' or 'xml'"], 0) :=
  stdict_C5 "사랑" "testkey" (some "word_info") "yaml" (HttpOutcome.success "body")
    (Or.inl (by decide)) (by constructor <;> decide)

/-- Claim C6: whenever the outbound HTTP request fails with description
`desc` (network error or non-2xx status, uniformly modelled by the
oracle's failure case), `search` returns the single text
`"Error: " ++ desc`, and so does every `detail` call that reaches its
request; both operations are total functions here, so no exception
propagates to the caller. -/
theorem stdict_C6 (a : SearchArgs) (query api_key : String)
    (method : Option String) (req_type : String) (desc : String)
    (hm : effectiveMethod query method = "word_info" ∨
          effectiveMethod query method = "target_code")
    (hr : req_type = "json" ∨ req_type = "xml") :
    search a (HttpOutcome.failure desc) = (["Error: " ++ desc], 1) ∧
    detail query api_key method req_type (HttpOutcome.failure desc) =
      (["Error: " ++ desc], 1) := by
  refine ⟨rfl, ?_⟩
  cases hm with
  | inl h => cases hr with
    | inl h2 => simp [detail, dispatch, h, h2]
    | inr h2 => simp [detail, dispatch, h, h2]
  | inr h => cases hr with
    | inl h2 => simp [detail, dispatch, h, h2]
    | inr h2 => simp [detail, dispatch, h, h2]

/-- Claim C6, witness: a concrete connection failure surfaces as an
`Error: `-prefixed text result from both operations. -/
theorem stdict_C6_witness :
    search (defaultSearchArgs "사랑" "testkey") (HttpOutcome.failure "connection refused") =
      (["Error: connection refused"], 1) ∧
    detail "사랑" "testkey" none "json" (HttpOutcome.failure "connection refused") =
      (["Error: connection refused"], 1) :=
  stdict_C6 (defaultSearchArgs "사랑" "testkey") "사랑" "testkey" none "json"
    "connection refused" (Or.inl (by decide)) (Or.inl rfl)

/-- Claim C7: credential resolution returns the environment value
whenever the environment variable provides one (a non-empty string, by
the source's truthiness test), regardless of the file; falls back to
the configuration file's key when the environment provides none;
treats an unreadable or malformed configuration file exactly like an
absent one; and raises the not-found error precisely when neither
source provides a key. -/
theorem stdict_C7 (env : Option String) (fs : FileState) :
    (∀ k, env = some k → k ≠ "" → get_api_key env fs = Except.ok (JValue.str k)) ∧
    (pyTruthy env = false → ∀ v, fileKey fs = some v →
      get_api_key env fs = Except.ok v) ∧
    (get_api_key env FileState.unreadable = get_api_key env FileState.absent ∧
     get_api_key env FileState.malformed = get_api_key env FileState.absent) ∧
    (get_api_key env fs = Except.error apiKeyNotFoundMsg ↔
      pyTruthy env = false ∧ fileKey fs = none) := by
  have hcof : ∀ fs2 : FileState, configOrFail fs2 = Except.error apiKeyNotFoundMsg ↔
      fileKey fs2 = none := by
    intro fs2
    cases hfk : fileKey fs2 <;> simp [configOrFail, hfk]
  refine ⟨?_, ?_, ⟨?_, ?_⟩, ?_⟩
  · rintro k rfl hne
    have hbe : (k == "") = false := beq_eq_false_iff_ne.mpr hne
    simp [get_api_key, hbe]
  · intro hpt v hv
    cases env with
    | none => simp [get_api_key, configOrFail, hv]
    | some k =>
      have hke : k = "" := by
        by_contra hne
        simp [pyTruthy, beq_eq_false_iff_ne.mpr hne] at hpt
      subst hke
      simp [get_api_key, configOrFail, hv]
  · cases env with
    | none => rfl
    | some k =>
      by_cases hke : k = ""
      · subst hke
        rfl
      · simp [get_api_key, beq_eq_false_iff_ne.mpr hke]
  · cases env with
    | none => rfl
    | some k =>
      by_cases hke : k = ""
      · subst hke
        rfl
      · simp [get_api_key, beq_eq_false_iff_ne.mpr hke]
  · cases env with
    | none => simpa [get_api_key, pyTruthy] using hcof fs
    | some k =>
      by_cases hke : k = ""
      · subst hke
        simpa [get_api_key, pyTruthy] using hcof fs
      · simp [get_api_key, beq_eq_false_iff_ne.mpr hke, pyTruthy]

/-- Claim C7, witness: with a concrete config file providing a key, the
environment value wins when present, and the file value is returned
when the environment is unset. -/
theorem stdict_C7_witness :
    get_api_key (some "envkey") (FileState.content cfgWithKey) =
      Except.ok (JValue.str "envkey") ∧
    get_api_key none (FileState.content cfgWithKey) =
      Except.ok (JValue.str "filekey") :=
  ⟨(stdict_C7 (some "envkey") (FileState.content cfgWithKey)).1 "envkey" rfl (by decide),
   (stdict_C7 none (FileState.content cfgWithKey)).2.1 rfl (JValue.str "filekey") rfl⟩

/-- Claim C8: when both the effective method and the req_type are
invalid, `detail` reports the method error (validated first), not the
req_type error, and makes no network call. -/
theorem stdict_C8 (query api_key : String) (method : Option String)
    (req_type : String) (http : HttpOutcome)
    (hm : effectiveMethod query method ≠ "word_info" ∧
          effectiveMethod query method ≠ "target_code")
    (hr : req_type ≠ "json" ∧ req_type ≠ "xml") :
    detail query api_key method req_type http =
      (["Error: Invalid method value. Must be 'word_info' or 'target_code'"], 0) ∧
    (detail query api_key method req_type http).1 ≠
      ["Error: Invalid req_type value. Must be 'json' or 'xml'"] := by
  obtain ⟨h1, h2⟩ := hm
  have hd : detail query api_key method req_type http =
      (["Error: Invalid method value. Must be 'word_info' or 'target_code'"], 0) := by
    simp [detail, h1, h2]
  refine ⟨hd, ?_⟩
  rw [hd]
  decide

/-- Claim C8, witness at `method="bogus"`, `req_type="yaml"`. -/
theorem stdict_C8_witness :
    detail "사랑" "testkey" (some "bogus") "yaml" (HttpOutcome.success "body") =
      (["Error: Invalid method value. Must be 'word_info' or 'target_code'"], 0) ∧
    (detail "사랑" "testkey" (some "bogus") "yaml" (HttpOutcome.success "body")).1 ≠
      ["Error: Invalid req_type value. Must be 'json' or 'xml'"] :=
  stdict_C8 "사랑" "testkey" (some "bogus") "yaml" (HttpOutcome.success "body")
    (by constructor <;> decide) (by constructor <;> decide)

/-- Claim C10: an environment variable set to the empty string is
treated exactly like an unset one — resolution proceeds to the
configuration file — and when the file provides nothing either (here:
it is absent) resolution ends in the not-found error, so only a
non-empty environment value is ever returned from the first step. -/
theorem stdict_C10 :
    (∀ fs : FileState, get_api_key (some "") fs = get_api_key none fs) ∧
    get_api_key (some "") FileState.absent = Except.error apiKeyNotFoundMsg := by
  exact ⟨fun fs => rfl, rfl⟩
